import Mathlib

/-
Verification development for the covidreams analysis pipeline.

The repository is a set of Python batch scripts (utils.py, anxiety_corr.py,
anxiety_regr.py, nightmares_chi2.py, samplesize.py) built on pandas.  This file
gives a shallow embedding of the data model and the operations the claims are
about, translated from the source:

  - cell values of a numeric pandas column are modelled by the type Val
    (missing NaN, plus/minus infinity from zero division, finite rationals);
  - pandas Series.shift, forward fill and pct_change are modelled on List Val
    exactly as pandas computes them (pct_change pad-fills and then divides by
    the shifted filled series; division by zero yields an infinity, 0/0 and
    any operation touching NaN yields NaN);
  - the record table of utils.py is modelled row-wise (DF); the in-place
    column write of line 17 of utils.py is modelled by returning the caller
    visible table next to the function result;
  - the aggregation steps of anxiety_corr.py (groupby subreddit x week, mean,
    unstack, dropna) and samplesize.py (groupby day x flair, size, unstack,
    fillna 0) are modelled over explicit record lists;
  - external statistical routines (statsmodels OLS, pingouin chi2 and
    compute_bootci) are out of scope per the specification and are modelled
    from the contracts the specification states for them; each such definition
    carries a doc comment starting with: Modelled from the spec.
-/

namespace Covidreams

/-! ## Cell values of a numeric pandas column -/

/-- A cell of a float-valued pandas column: missing (NaN), an infinity
produced by zero division, or a finite rational. -/
inductive Val where
  | NA : Val
  | pinf : Val
  | ninf : Val
  | num : ℚ → Val
deriving DecidableEq, Repr

/-- Subtraction with IEEE-like NaN and infinity propagation, as numpy
performs it on float Series. -/
def Val.sub : Val → Val → Val
  | Val.NA, _ => Val.NA
  | _, Val.NA => Val.NA
  | Val.num a, Val.num b => Val.num (a - b)
  | Val.pinf, Val.num _ => Val.pinf
  | Val.ninf, Val.num _ => Val.ninf
  | Val.num _, Val.pinf => Val.ninf
  | Val.num _, Val.ninf => Val.pinf
  | Val.pinf, Val.pinf => Val.NA
  | Val.pinf, Val.ninf => Val.pinf
  | Val.ninf, Val.pinf => Val.ninf
  | Val.ninf, Val.ninf => Val.NA

/-- Division as numpy performs it on float Series: NaN propagates, a nonzero
value divided by zero is a signed infinity, 0/0 is NaN. -/
def Val.div : Val → Val → Val
  | Val.NA, _ => Val.NA
  | _, Val.NA => Val.NA
  | Val.num a, Val.num b =>
      if b = 0 then
        (if a = 0 then Val.NA else if 0 < a then Val.pinf else Val.ninf)
      else Val.num (a / b)
  | Val.pinf, Val.num b => if 0 ≤ b then Val.pinf else Val.ninf
  | Val.ninf, Val.num b => if 0 ≤ b then Val.ninf else Val.pinf
  | _, Val.pinf => Val.num 0
  | _, Val.ninf => Val.num 0

/-! ## pandas Series operations: shift, forward fill, pct_change -/

/-- Forward fill carrying the last non-missing value seen so far
(pandas fillna with method pad); the carry starts as missing. -/
def ffillAux : Val → List Val → List Val
  | _, [] => []
  | last, Val.NA :: xs => last :: ffillAux last xs
  | _, x :: xs => x :: ffillAux x xs

/-- pandas Series.ffill / fillna(method=pad). -/
def ffill (s : List Val) : List Val := ffillAux Val.NA s

/-- pandas Series.shift(k) for k greater or equal 0: element t of the result
is element t-k of the input; the first k positions are missing and the last k
input values fall off the end (the length is preserved). -/
def shiftList (k : ℕ) (s : List Val) : List Val :=
  List.replicate (min k s.length) Val.NA ++ s.take (s.length - k)

/-- The elementwise percent-change step: current divided by predecessor,
minus one. -/
def pctOp (x p : Val) : Val := Val.sub (Val.div x p) (Val.num 1)

/-- pandas Series.pct_change() with the default fill_method pad: the series
is forward filled, then each filled value is divided by its filled
predecessor and 1 is subtracted.  Position 0 has no predecessor and is
always missing. -/
def pctList (s : List Val) : List Val :=
  List.zipWith pctOp (ffill s) (Val.NA :: ffill s)

/-- The pandas test df[col].abs().ge(bound).any() on one cell: NaN compares
false, an infinity exceeds every bound, a finite value is compared by
absolute value (inclusive). -/
def valAbsGe (v : Val) (bound : ℚ) : Bool :=
  match v with
  | Val.NA => false
  | Val.pinf => true
  | Val.ninf => true
  | Val.num a => bound ≤ |a|

/-! ## utils.py: the record table, filter_flair and preprocess_subreddit -/

/-- One row of the scraped-post table (a Record).  The timestamp cell is an
Option because the timestamp column does not exist until
preprocess_subreddit writes it; the instant is modelled as the epoch-second
integer (pd.to_datetime with unit s and utc is an injective rescaling). -/
structure Row where
  id : ℕ
  created_utc : ℤ
  selftext : Option String
  title : Option String
  link_flair_text : Option String
  wc : ℚ
  timestamp : Option ℤ
deriving DecidableEq, Repr

/-- The record table: rows plus presence of the optional WC column
(the branch at line 27 of utils.py tests whether WC is a column). -/
structure DF where
  rows : List Row
  hasWC : Bool
deriving DecidableEq, Repr

/-- Error kinds named by the specification. -/
inductive UtilsError where
  | InvalidCategoryError : UtilsError
deriving DecidableEq, Repr

/-- The dream flair whitelist of utils.filter_flair. -/
def dream_flair : List String := ["Short Dream", "Medium Dream", "Long Dream"]

/-- df[link_flair_text].isin(dream_flair) on one row: a missing flair is
never a member (pandas isin is false on NaN). -/
def flairMatch (r : Row) : Bool :=
  match r.link_flair_text with
  | some f => dream_flair.contains f
  | none => false

/-- utils.filter_flair.  The assert at line 36 of utils.py rejects any mode
outside dreams/wake; the specification names this failure
InvalidCategoryError.  Mode wake selects the complement of the dream-flair
rows.  Boolean-mask selection and reset_index build a new frame, so the
caller table is untouched. -/
def filter_flair (df : DF) (posts : String) : Except UtilsError DF :=
  if posts = "dreams" ∨ posts = "wake" then
    Except.ok { rows := df.rows.filter
                  (fun r => if posts = "wake" then !(flairMatch r) else flairMatch r),
                hasWC := df.hasWC }
  else
    Except.error UtilsError.InvalidCategoryError

/-- filter_flair in caller-state-passing form: the first component is the
caller table after the call.  No statement of filter_flair mutates the
argument frame (isin, the complement mask, .loc selection and reset_index
all allocate new objects), so the caller state is returned unchanged. -/
def filter_flairS (df : DF) (posts : String) : DF × Except UtilsError DF :=
  (df, filter_flair df posts)

/-- The column selected by the column argument of preprocess_subreddit. -/
def colOf (column : String) (r : Row) : Option String :=
  if column = "title" then r.title else r.selftext

/-- Line 17 of utils.py: df[timestamp] = pd.to_datetime(df[created_utc]...),
an in-place write of the timestamp column into the frame the caller passed. -/
def setTimestamp (r : Row) : Row :=
  { r with timestamp := some r.created_utc }

/-- drop_duplicates(subset=[column], keep=first): keep a row unless its key
was already seen. -/
def dedupKeepFirstAux (key : Row → Option String) :
    List (Option String) → List Row → List Row
  | _, [] => []
  | seen, r :: rs =>
      if key r ∈ seen then dedupKeepFirstAux key seen rs
      else r :: dedupKeepFirstAux key (key r :: seen) rs

/-- drop_duplicates on one column keeping the first occurrence. -/
def dedupKeepFirst (key : Row → Option String) (rows : List Row) : List Row :=
  dedupKeepFirstAux key [] rows

/-- utils.preprocess_subreddit in caller-state-passing form.  The first
component is the frame the caller passed, as it stands after the call: line
17 wrote the timestamp column into it in place.  Every later step (isin
mask, dropna, drop_duplicates, query, reset_index) allocates a new frame
bound to the local df, so the result (second component) is built without
further effect on the caller.  -/
def preprocess_subreddit (df : DF) (column : String) : DF × DF :=
  let caller : DF := { rows := df.rows.map setTimestamp, hasWC := df.hasWC }
  let d1 := caller.rows.filter
    (fun r => !(colOf column r = some "[deleted]" ∨ colOf column r = some "[removed]" : Bool))
  let d2 := d1.filter (fun r => (colOf column r).isSome)
  let d3 := dedupKeepFirst (colOf column) d2
  let d4 :=
    if df.hasWC then d3.filter (fun r => 1 ≤ r.wc)
    else d3.filter (fun r =>
      match colOf column r with
      | some s => 1 ≤ s.length
      | none => false)
  (caller, { rows := d4, hasWC := df.hasWC })

/-! ## Pre/post window classification (anxiety_regr.py and nightmares_chi2.py)

Timestamps and the anchor are modelled as rationals on a common time axis so
that one instant before day D is expressible. -/

/-- Line 76 of anxiety_regr.py: daily[Covid] = daily[date].gt(covid_dt),
the post-anchor indicator of the segmented regression.  gt is a strict
comparison. -/
def covidIndicator (date anchor : ℚ) : ℕ :=
  if anchor < date then 1 else 0

/-- Line 54 of nightmares_chi2.py: df[PostCovid] =
df[timestamp].between(covid_dt, end_dt, inclusive=both), the
window-membership label of the independence test. -/
def postCovidLabel (ts anchor endt : ℚ) : Bool :=
  decide (anchor ≤ ts ∧ ts ≤ endt)

/-! ## Sorting of bucket indexes

pandas sorts grouped indexes; an insertion sort keeps the model fully
evaluable. -/

/-- Insert into a sorted list. -/
def insertLe {α : Type} (le : α → α → Bool) (x : α) : List α → List α
  | [] => [x]
  | y :: ys => if le x y then x :: y :: ys else y :: insertLe le x ys

/-- Insertion sort by the given comparison. -/
def sortLe {α : Type} (le : α → α → Bool) (l : List α) : List α :=
  l.foldr (insertLe le) []

/-- Lexicographic comparison of character lists (by code point). -/
def charsLe : List Char → List Char → Bool
  | [], _ => true
  | _ :: _, [] => false
  | c :: cs, d :: ds =>
      if c.val < d.val then true
      else if d.val < c.val then false
      else charsLe cs ds

/-- Lexicographic string order, as pandas sorts column labels. -/
def strLe (a b : String) : Bool := charsLe a.data b.data

/-! ## anxiety_corr.py: weekly aggregation, lag shift, percent change,
emission order -/

/-- One record of the concatenated LIWC tables consumed by anxiety_corr.py,
already reduced to the fields the weekly aggregation reads: the subreddit
group key, the week bucket its timestamp falls into (pd.Grouper freq W), and
the two score cells (missing where the source table has no such column, e.g.
covid on r/Dreams rows). -/
structure CRec where
  subreddit : String
  week : ℤ
  covid : Option ℚ
  emo_anx : Option ℚ
deriving DecidableEq, Repr

/-- The distinct week buckets present in the data, in increasing order
(the sorted time index of the grouped frame). -/
def cweeks (recs : List CRec) : List ℤ :=
  sortLe (fun a b => a ≤ b) (recs.map (fun r => r.week)).dedup

/-- The non-missing values of one score field contributed by one subreddit
to one week bucket (groupby subreddit x week; mean skips NaN cells). -/
def groupVals (recs : List CRec) (sub : String) (field : CRec → Option ℚ) (w : ℤ) :
    List ℚ :=
  (recs.filter (fun r => r.subreddit = sub ∧ r.week = w)).filterMap field

/-- The weekly mean Series of one subreddit and one score field: one bucket
per week with at least one contributing non-missing value; a week with no
contribution yields a NaN mean and is absent (dropped by the dropna chain). -/
def groupWeeklyMean (recs : List CRec) (sub : String) (field : CRec → Option ℚ) :
    List (ℤ × ℚ) :=
  (cweeks recs).filterMap (fun w =>
    let vs := groupVals recs sub field w
    if vs.isEmpty then none else some (w, vs.sum / vs.length))

/-- Lines 67-76 of anxiety_corr.py: the weekly table after groupby, mean,
unstack and the dropna chain.  Column covid survives only for subreddit news
and emo_anx only for Dreams (the other columns are entirely NaN and are
dropped by dropna(axis=1)); dropna(axis=0) then keeps exactly the weeks
where both surviving columns are defined, i.e. where both groups contribute
at least one value.  Each row is (week, Dreams mean emo_anx, news mean
covid). -/
def weeklyTable (recs : List CRec) : List (ℤ × ℚ × ℚ) :=
  (cweeks recs).filterMap (fun w =>
    let ds := groupVals recs "Dreams" (fun r => r.emo_anx) w
    let ns := groupVals recs "news" (fun r => r.covid) w
    if ds.isEmpty ∨ ns.isEmpty then none
    else some (w, ds.sum / ds.length, ns.sum / ns.length))

/-- The four files anxiety_corr.py exports, in the order the script writes
them (stats tsv, values tsv, then the two plot files). -/
def anxietyCorrOutputs : List String := ["stat", "vals", "png", "pdf"]

/-- Lines 78-182 of anxiety_corr.py from the weekly table on, reduced to the
emission behaviour: the Dreams column is shifted by one week (nextDreams),
percent change is taken per column, the stats and values tables are written
(lines 99-100), and only then does the plotting section run, whose asserts
at lines 156-157 abort the process when any percent-change magnitude reaches
the axis limit (0.35 for news, 0.6 for dreams, 0.8 in wake mode).  The
result is the list of files written and the error the run ended with, if
any. -/
def runAnxietyCorr (recs : List CRec) (posts : String) : List String × Option String :=
  let tbl := weeklyTable recs
  let dreams := tbl.map (fun x => Val.num x.2.1)
  let news := tbl.map (fun x => Val.num x.2.2)
  let nextDreams := shiftList 1 dreams
  let newsPct := pctList news
  let nextDreamsPct := pctList nextDreams
  let ylim : ℚ := if posts = "wake" then 8/10 else 6/10
  if newsPct.any (fun v => valAbsGe v (35/100))
      ∨ nextDreamsPct.any (fun v => valAbsGe v ylim) then
    (["stat", "vals"], some "AssertionError")
  else
    (anxietyCorrOutputs, none)

/-! ## samplesize.py: daily count table -/

/-- One raw r/Dreams record as samplesize.py consumes it: the day bucket of
its timestamp (pd.Grouper freq D) and its flair cell. -/
structure SRec where
  day : ℤ
  link_flair_text : Option String
deriving DecidableEq, Repr

/-- Lines 48-53 of samplesize.py: the consolidated flair column.  A missing
flair is filled with None and every non-dream flair is replaced by None. -/
def consFlair (r : SRec) : String :=
  match r.link_flair_text with
  | some f => if dream_flair.contains f then f else "None"
  | none => "None"

/-- The day buckets carrying at least one record, in increasing order. -/
def sdays (recs : List SRec) : List ℤ :=
  sortLe (fun a b => a ≤ b) (recs.map (fun r => r.day)).dedup

/-- The flair columns of the unstacked count table (the distinct
consolidated flairs observed), in lexicographic order as pandas unstack
sorts them. -/
def sflairs (recs : List SRec) : List String :=
  sortLe strLe (recs.map consFlair).dedup

/-- Lines 56-62 of samplesize.py: groupby day x consolidated flair, size,
unstack, fillna(0).  Each day bucket with at least one record yields a row
holding a count for every flair column; a (day, flair) cell with no
contributing record is filled with 0 by fillna. -/
def dailyCounts (recs : List SRec) : List (ℤ × List (String × ℕ)) :=
  (sdays recs).map (fun d =>
    (d, (sflairs recs).map (fun f =>
      (f, (recs.filter (fun r => r.day = d ∧ consFlair r = f)).length))))

/-- Cell lookup in the daily count table. -/
def lookupCell (tbl : List (ℤ × List (String × ℕ))) (d : ℤ) (f : String) : Option ℕ :=
  match List.lookup d tbl with
  | some row => List.lookup f row
  | none => none

/-! ## nightmares_chi2.py: independence test and bootstrap confidence
intervals -/

/-- The keyword arguments of the pg.compute_bootci call.  The record lists
the effective value of every argument of the call at lines 69-71 of
nightmares_chi2.py: the dict literal bootci_kwargs passes func, method,
n_boot and decimals, and the seed argument of compute_bootci is left at its
library default None. -/
structure BootciKwargs where
  func : String
  method : String
  n_boot : ℕ
  decimals : ℕ
  seed : Option ℕ
deriving DecidableEq, Repr

/-- Line 69 of nightmares_chi2.py:
bootci_kwargs = dict(func=mean, method=per, n_boot=10000, decimals=6).
No seed key is present, so seed is None. -/
def bootci_kwargs : BootciKwargs :=
  { func := "mean", method := "per", n_boot := 10000, decimals := 6, seed := none }

/-- Modelled from the spec: the pseudo-random index stream of a seeded
bootstrap generator (the numerical generator itself is an external library
detail; any fixed deterministic stream is a faithful model of a seeded
generator). -/
def seededStream (s : ℕ) (t : ℕ) : ℕ :=
  (1103515245 * (s + t) + 12345) % 2147483648

/-- Modelled from the spec: one bootstrap resample mean.  Resample j draws
length-many indices from the stream and averages the data at those indices
(sampling with replacement). -/
def resampleMean (data : List ℚ) (stream : ℕ → ℕ) (j : ℕ) : ℚ :=
  (((List.range data.length).map
      (fun i => data.getD (stream (j * data.length + i) % data.length) 0)).sum)
    / (data.length : ℚ)

/-- The index of the p-per-mille percentile in a sorted list of n resample
statistics (percentile method). -/
def percentileIdx (n : ℕ) (pmille : ℕ) : ℕ := (pmille * (n - 1)) / 1000

/-- Modelled from the spec: pg.compute_bootci (pingouin), an external
routine treated as a black box with the contract the spec states: it draws
n_boot resamples with replacement, computes the statistic (mean) on each,
and returns the percentile confidence interval (2.5th and 97.5th
percentile).  The resample indices come from a pseudo-random generator that
is seeded deterministically when a seed argument is given and otherwise
consumes the ambient random state of the process, modelled as an explicit
stream argument. -/
def computeBootci (data : List ℚ) (kw : BootciKwargs) (ambient : ℕ → ℕ) : ℚ × ℚ :=
  let stream : ℕ → ℕ :=
    match kw.seed with
    | some s => seededStream s
    | none => ambient
  let means := (List.range kw.n_boot).map (resampleMean data stream)
  let sorted := means.mergeSort (fun a b => a ≤ b)
  (sorted.getD (percentileIdx kw.n_boot 25) 0, sorted.getD (percentileIdx kw.n_boot 975) 0)

/-- One record of the LIWC titles table as nightmares_chi2.py consumes it:
a timestamp and the nightmare topic score. -/
structure NRec where
  timestamp : ℚ
  nightmare : ℚ
deriving DecidableEq, Repr

/-- Line 50 of nightmares_chi2.py: df[nightmare].gt(0).astype(int). -/
def nightBin (r : NRec) : ℕ := if 0 < r.nightmare then 1 else 0

/-- Line 53 of nightmares_chi2.py: restriction to the window
[start_dt, end_dt], inclusive both. -/
def chi2Window (recs : List NRec) (startt endt : ℚ) : List NRec :=
  recs.filter (fun r => startt ≤ r.timestamp ∧ r.timestamp ≤ endt)

/-- The binarized nightmare values of the pre-window rows
(df.query(PostCovid==False) at line 67). -/
def preNmVals (recs : List NRec) (anchor startt endt : ℚ) : List ℚ :=
  ((chi2Window recs startt endt).filter
      (fun r => !(postCovidLabel r.timestamp anchor endt))).map
    (fun r => (nightBin r : ℚ))

/-- The binarized nightmare values of the post-window rows
(df.query(PostCovid==True) at line 68). -/
def postNmVals (recs : List NRec) (anchor startt endt : ℚ) : List ℚ :=
  ((chi2Window recs startt endt).filter
      (fun r => postCovidLabel r.timestamp anchor endt)).map
    (fun r => (nightBin r : ℚ))

/-- The observed 2x2 contingency counts (pre/post x nightmare 0/1), as
pg.chi2_independence cross-tabulates them. -/
def contingency (recs : List NRec) (anchor startt endt : ℚ) : ℕ × ℕ × ℕ × ℕ :=
  let win := chi2Window recs startt endt
  let pre := win.filter (fun r => !(postCovidLabel r.timestamp anchor endt))
  let post := win.filter (fun r => postCovidLabel r.timestamp anchor endt)
  ((pre.filter (fun r => nightBin r = 0)).length,
   (pre.filter (fun r => nightBin r = 1)).length,
   (post.filter (fun r => nightBin r = 0)).length,
   (post.filter (fun r => nightBin r = 1)).length)

/-- Modelled from the spec: the Pearson chi-square statistic of a 2x2 table
without continuity correction (pg.chi2_independence with correction=False is
an external routine; the statistic n (ad-bc)^2 over the product of the
marginals is its documented contract; a degenerate marginal yields 0 by the
total-division convention). -/
def chi2Stat (t : ℕ × ℕ × ℕ × ℕ) : ℚ :=
  let a : ℚ := t.1
  let b : ℚ := t.2.1
  let c : ℚ := t.2.2.1
  let d : ℚ := t.2.2.2
  let n := a + b + c + d
  n * (a * d - b * c) ^ 2 / ((a + b) * (c + d) * (a + c) * (b + d))

/-- The full output of the independence-test evaluator: statistic, observed
counts, expected counts, and the two bootstrap confidence intervals on the
nightmare proportion (in percent, as lines 70-71 scale them by 100). -/
structure Chi2Result where
  chi2 : ℚ
  obs : ℕ × ℕ × ℕ × ℕ
  expPre0 : ℚ
  expPre1 : ℚ
  expPost0 : ℚ
  expPost1 : ℚ
  preCI : ℚ × ℚ
  postCI : ℚ × ℚ
deriving DecidableEq, Repr

/-- Lines 50-74 of nightmares_chi2.py as one evaluator invocation: binarize,
window, label, cross-tabulate, chi-square, expected frequencies, and
bootstrap confidence intervals on the observed nightmare proportion of each
window group.  The ambient argument is the random state of the process at
the invocation, consumed by the bootstrap when no seed is passed. -/
def evalNightmares (recs : List NRec) (anchor startt endt : ℚ) (ambient : ℕ → ℕ) :
    Chi2Result :=
  let t := contingency recs anchor startt endt
  let a : ℚ := t.1
  let b : ℚ := t.2.1
  let c : ℚ := t.2.2.1
  let d : ℚ := t.2.2.2
  let n := a + b + c + d
  let preCI := computeBootci (preNmVals recs anchor startt endt) bootci_kwargs ambient
  let postCI := computeBootci (postNmVals recs anchor startt endt) bootci_kwargs ambient
  { chi2 := chi2Stat t,
    obs := t,
    expPre0 := (a + b) * (a + c) / n,
    expPre1 := (a + b) * (b + d) / n,
    expPost0 := (c + d) * (a + c) / n,
    expPost1 := (c + d) * (b + d) / n,
    preCI := (100 * preCI.1, 100 * preCI.2),
    postCI := (100 * postCI.1, 100 * postCI.2) }

/-! ## anxiety_regr.py: segmented regression and the counterfactual fit -/

/-- One row of the daily mean-anxiety Series consumed by the regression
(the frame after line 72 of anxiety_regr.py, already restricted to the
symmetric window): the day (as a day index on the calendar axis) and the
mean emo_anx of that day, missing where the day had no post or the
shift(-1) moved a missing value in. -/
structure DailyRow where
  date : ℤ
  emo_anx : Option ℚ
deriving DecidableEq, Repr

/-- A row of the regression design: target plus the three derived
regressors of lines 75-77 of anxiety_regr.py. -/
structure RegRow where
  date : ℤ
  emo_anx : Option ℚ
  time : ℕ
  covid : ℕ
  timeCovid : ℕ
deriving DecidableEq, Repr

/-- Lines 75-77 of anxiety_regr.py: Time = 1..n, Covid = date.gt(anchor),
TimeCovid = Covid.cumsum(). -/
def addRegressorsAux (anchor : ℤ) : ℕ → ℕ → List DailyRow → List RegRow
  | _, _, [] => []
  | t, acc, r :: rs =>
      let c : ℕ := if anchor < r.date then 1 else 0
      { date := r.date, emo_anx := r.emo_anx, time := t, covid := c,
        timeCovid := acc + c } :: addRegressorsAux anchor (t + 1) (acc + c) rs

/-- The windowed daily Series with its three regressors attached. -/
def addRegressors (daily : List DailyRow) (anchor : ℤ) : List RegRow :=
  addRegressorsAux anchor 1 0 daily

/-- Line 88 of anxiety_regr.py: daily.set_index(date).loc[start_dt:covid_dt],
the pre-anchor subset (a pandas label slice, inclusive at both ends). -/
def precovidSubset (rows : List RegRow) (startd anchor : ℤ) : List RegRow :=
  rows.filter (fun r => startd ≤ r.date ∧ r.date ≤ anchor)

/-- A vector of the four regression coefficients (Intercept, Time, Covid,
TimeCovid). -/
structure Vec4 where
  a : ℚ
  b : ℚ
  c : ℚ
  d : ℚ
deriving DecidableEq, Repr

/-- A 4x4 rational matrix given by rows. -/
structure Mat4 where
  r1 : Vec4
  r2 : Vec4
  r3 : Vec4
  r4 : Vec4
deriving DecidableEq, Repr

/-- Determinant of a 2x2 block. -/
def det2 (a b c d : ℚ) : ℚ := a * d - b * c

/-- Determinant of a 3x3 matrix given entrywise. -/
def det3 (a b c d e f g h i : ℚ) : ℚ :=
  a * det2 e f h i - b * det2 d f g i + c * det2 d e g h

/-- Determinant of a 4x4 matrix (cofactor expansion along the first row). -/
def det4 (m : Mat4) : ℚ :=
  m.r1.a * det3 m.r2.b m.r2.c m.r2.d m.r3.b m.r3.c m.r3.d m.r4.b m.r4.c m.r4.d
  - m.r1.b * det3 m.r2.a m.r2.c m.r2.d m.r3.a m.r3.c m.r3.d m.r4.a m.r4.c m.r4.d
  + m.r1.c * det3 m.r2.a m.r2.b m.r2.d m.r3.a m.r3.b m.r3.d m.r4.a m.r4.b m.r4.d
  - m.r1.d * det3 m.r2.a m.r2.b m.r2.c m.r3.a m.r3.b m.r3.c m.r4.a m.r4.b m.r4.c

/-- The usable observations of a fit: statsmodels drops rows whose target is
missing (missing=drop); each surviving row contributes its target and the
regressor vector (1, Time, Covid, TimeCovid). -/
def usablePoints (rows : List RegRow) : List (ℚ × Vec4) :=
  rows.filterMap (fun r =>
    r.emo_anx.map (fun y =>
      (y, { a := 1, b := (r.time : ℚ), c := (r.covid : ℚ), d := (r.timeCovid : ℚ) })))

/-- Vector addition on Vec4. -/
def v4add (u v : Vec4) : Vec4 :=
  { a := u.a + v.a, b := u.b + v.b, c := u.c + v.c, d := u.d + v.d }

/-- The Gram matrix (design transpose times design) of a list of regressor
vectors. -/
def gram (xs : List Vec4) : Mat4 :=
  xs.foldr (fun x m =>
    { r1 := v4add m.r1 { a := x.a * x.a, b := x.a * x.b, c := x.a * x.c, d := x.a * x.d },
      r2 := v4add m.r2 { a := x.b * x.a, b := x.b * x.b, c := x.b * x.c, d := x.b * x.d },
      r3 := v4add m.r3 { a := x.c * x.a, b := x.c * x.b, c := x.c * x.c, d := x.c * x.d },
      r4 := v4add m.r4 { a := x.d * x.a, b := x.d * x.b, c := x.d * x.c, d := x.d * x.d } })
    { r1 := { a := 0, b := 0, c := 0, d := 0 },
      r2 := { a := 0, b := 0, c := 0, d := 0 },
      r3 := { a := 0, b := 0, c := 0, d := 0 },
      r4 := { a := 0, b := 0, c := 0, d := 0 } }

/-- Design transpose times target vector. -/
def xty (pts : List (ℚ × Vec4)) : Vec4 :=
  pts.foldr (fun p v =>
    v4add v { a := p.2.a * p.1, b := p.2.b * p.1, c := p.2.c * p.1, d := p.2.d * p.1 })
    { a := 0, b := 0, c := 0, d := 0 }

/-- Replace column 1 of a matrix. -/
def withCol1 (m : Mat4) (v : Vec4) : Mat4 :=
  { r1 := { m.r1 with a := v.a }, r2 := { m.r2 with a := v.b },
    r3 := { m.r3 with a := v.c }, r4 := { m.r4 with a := v.d } }

/-- Replace column 2 of a matrix. -/
def withCol2 (m : Mat4) (v : Vec4) : Mat4 :=
  { r1 := { m.r1 with b := v.a }, r2 := { m.r2 with b := v.b },
    r3 := { m.r3 with b := v.c }, r4 := { m.r4 with b := v.d } }

/-- Replace column 3 of a matrix. -/
def withCol3 (m : Mat4) (v : Vec4) : Mat4 :=
  { r1 := { m.r1 with c := v.a }, r2 := { m.r2 with c := v.b },
    r3 := { m.r3 with c := v.c }, r4 := { m.r4 with c := v.d } }

/-- Replace column 4 of a matrix. -/
def withCol4 (m : Mat4) (v : Vec4) : Mat4 :=
  { r1 := { m.r1 with d := v.a }, r2 := { m.r2 with d := v.b },
    r3 := { m.r3 with d := v.c }, r4 := { m.r4 with d := v.d } }

/-- The error kind the specification assigns to a fit on insufficient data. -/
inductive FitError where
  | InsufficientDataError : FitError
deriving DecidableEq, Repr

/-- Modelled from the spec: the external OLS solver (statsmodels smf.ols,
out of scope per the spec).  Per the contract the spec states for it, a fit
on fewer than 4 usable points, or on a collinear design (the regressors are
linearly dependent, equivalently the Gram matrix is singular), fails with
InsufficientDataError; otherwise the normal equations have the unique
solution given by Cramer applied to the Gram matrix. -/
def fitOLS (rows : List RegRow) : Except FitError Vec4 :=
  let pts := usablePoints rows
  let g := gram (pts.map (fun p => p.2))
  if pts.length < 4 ∨ det4 g = 0 then
    Except.error FitError.InsufficientDataError
  else
    let bv := xty pts
    Except.ok
      { a := det4 (withCol1 g bv) / det4 g, b := det4 (withCol2 g bv) / det4 g,
        c := det4 (withCol3 g bv) / det4 g, d := det4 (withCol4 g bv) / det4 g }

/-- Lines 80-81 of anxiety_regr.py: the primary fit on the full windowed
Series. -/
def primaryFit (daily : List DailyRow) (anchor : ℤ) : Except FitError Vec4 :=
  fitOLS (addRegressors daily anchor)

/-- Lines 88-90 of anxiety_regr.py: the counterfactual fit on the
pre-anchor subset only. -/
def counterfactualFit (daily : List DailyRow) (anchor startd : ℤ) : Except FitError Vec4 :=
  fitOLS (precovidSubset (addRegressors daily anchor) startd anchor)

/-! ## Lemmas about the Series operations -/

/-- Forward fill preserves length. -/
lemma ffillAux_length (v : Val) (l : List Val) : (ffillAux v l).length = l.length := by
  induction l generalizing v with
  | nil => rfl
  | cons x xs ih => cases x <;> simp [ffillAux, ih]

/-- Forward fill preserves length. -/
lemma ffill_length (s : List Val) : (ffill s).length = s.length :=
  ffillAux_length Val.NA s

/-- A leading block of missing values is left missing by forward fill. -/
lemma ffillAux_replicateNA (k : ℕ) (l : List Val) :
    ffillAux Val.NA (List.replicate k Val.NA ++ l) =
      List.replicate k Val.NA ++ ffillAux Val.NA l := by
  induction k with
  | zero => simp
  | succ n ih => simp [List.replicate_succ, ffillAux, ih]

/-- Forward fill commutes with take. -/
lemma ffillAux_take (v : Val) (l : List Val) (m : ℕ) :
    ffillAux v (l.take m) = (ffillAux v l).take m := by
  induction l generalizing v m with
  | nil => simp [ffillAux]
  | cons x xs ih =>
    cases m with
    | zero => simp [ffillAux]
    | succ m => cases x <;> simp [ffillAux, ih]

/-- Forward fill of a shifted series is the shifted forward fill. -/
lemma ffill_shiftList (s : List Val) (k : ℕ) (hk : k ≤ s.length) :
    ffill (shiftList k s) =
      List.replicate k Val.NA ++ (ffill s).take (s.length - k) := by
  unfold shiftList ffill
  rw [min_eq_left hk, ffillAux_replicateNA, ffillAux_take]

/-- The percent-change step against a missing predecessor is missing. -/
lemma pctOp_na_right (x : Val) : pctOp x Val.NA = Val.NA := by
  cases x <;> rfl

/-- C9: lag shift and percent change commute.  For every Series s and lag
k greater or equal 0, the shifted Series satisfies shifted[t] = s[t - k]
(positions before the lag having no valid predecessor are missing), and the
percent change of the shifted Series at bucket t equals the percent change
of the unshifted Series at bucket t - k: the change of the shifted target
relative to its own prior bucket. -/
theorem c9_shift_pct_commute (s : List Val) (k t : ℕ)
    (ht : t < s.length) (hk : k ≤ t) :
    (shiftList k s)[t]? = s[t - k]? ∧
    (pctList (shiftList k s))[t]? = (pctList s)[t - k]? := by
  have hkn : k < s.length := lt_of_le_of_lt hk ht
  constructor
  · unfold shiftList
    rw [min_eq_left hkn.le, List.getElem?_append]
    simp only [List.length_replicate]
    rw [if_neg (by omega), List.getElem?_take, if_pos (by omega)]
  · have hfs2 : ffill (shiftList k s) =
        List.replicate k Val.NA ++ (ffill s).take (s.length - k) :=
      ffill_shiftList s k hkn.le
    have hlen : (ffill s).length = s.length := ffill_length s
    simp only [pctList]
    rw [hfs2, List.getElem?_zipWith, List.getElem?_zipWith]
    have hA : (List.replicate k Val.NA ++ (ffill s).take (s.length - k))[t]? =
        (ffill s)[t - k]? := by
      rw [List.getElem?_append]
      simp only [List.length_replicate]
      rw [if_neg (by omega), List.getElem?_take, if_pos (by omega)]
    have hB : (Val.NA :: (List.replicate k Val.NA ++ (ffill s).take (s.length - k)))[t]? =
        (Val.NA :: ffill s)[t - k]? := by
      have hcons : Val.NA :: (List.replicate k Val.NA ++ (ffill s).take (s.length - k)) =
          List.replicate (k + 1) Val.NA ++ (ffill s).take (s.length - k) := by
        simp [List.replicate_succ]
      rw [hcons, List.getElem?_append]
      simp only [List.length_replicate]
      rcases Nat.eq_or_lt_of_le hk with heq | hlt
      · subst heq
        rw [if_pos (by omega), List.getElem?_replicate, if_pos (by omega)]
        simp
      · rw [if_neg (by omega), List.getElem?_take, if_pos (by omega)]
        have hidx : t - k = (t - (k + 1)) + 1 := by omega
        rw [hidx, List.getElem?_cons_succ]
    rw [hA, hB]

/-- C9 witness: the commutation at the concrete Series [2, 4, 6] with lag 1
at bucket 2. -/
theorem c9_shift_pct_commute_witness :
    2 < [Val.num 2, Val.num 4, Val.num 6].length ∧ 1 ≤ 2 ∧
    ((shiftList 1 [Val.num 2, Val.num 4, Val.num 6])[2]? =
        [Val.num 2, Val.num 4, Val.num 6][2 - 1]? ∧
      (pctList (shiftList 1 [Val.num 2, Val.num 4, Val.num 6]))[2]? =
        (pctList [Val.num 2, Val.num 4, Val.num 6])[2 - 1]?) :=
  ⟨by decide, by decide,
    c9_shift_pct_commute [Val.num 2, Val.num 4, Val.num 6] 1 2 (by decide) (by decide)⟩

/-- C8 counterexample: the claim that pct[t] is missing whenever value[t-1]
is zero or either value is missing fails on the code.  On the Series [0, 1]
the percent change at bucket 1 is positive infinity (pandas divides by the
zero predecessor), not missing; and on the Series [1, NA, 2] the missing
middle value is pad-filled, so the percent change at bucket 1 is 0 and at
bucket 2 is 1, both defined although a raw operand is missing. -/
theorem c8_pct_change_cex :
    pctList [Val.num 0, Val.num 1] = [Val.NA, Val.pinf] ∧
    Val.pinf ≠ Val.NA ∧
    pctList [Val.num 1, Val.NA, Val.num 2] = [Val.NA, Val.num 0, Val.num 1] := by
  refine ⟨?_, fun h => Val.noConfusion h, ?_⟩ <;>
    norm_num [pctList, ffill, ffillAux, pctOp, Val.div, Val.sub]

/-- C8 amended: percent change at bucket 0 (no predecessor) is always
missing, never zero.  The general formula acts on the pad-filled series:
when the filled predecessor is zero and the current filled value is a
nonzero a, the result is a signed infinity (not missing); when the filled
predecessor is missing (no earlier value to fill from), the result is
missing. -/
theorem c8_pct_change_amended (s : List Val) (t u : ℕ) (a : ℚ)
    (h0 : s ≠ [])
    (hz : (ffill s)[t]? = some (Val.num 0))
    (hs : (ffill s)[t + 1]? = some (Val.num a))
    (ha : a ≠ 0)
    (hN : (ffill s)[u]? = some Val.NA)
    (hu : u + 1 < s.length) :
    (pctList s)[0]? = some Val.NA ∧
    (pctList s)[t + 1]? = some (if 0 < a then Val.pinf else Val.ninf) ∧
    (pctList s)[u + 1]? = some Val.NA := by
  have hlen : (ffill s).length = s.length := ffill_length s
  refine ⟨?_, ?_, ?_⟩
  · have hpos : 0 < (ffill s).length := by
      rw [hlen]
      exact List.length_pos.mpr h0
    have hx : (ffill s)[0]? = some ((ffill s)[0]) := List.getElem?_eq_getElem hpos
    simp only [pctList, List.getElem?_zipWith, hx, List.getElem?_cons_zero]
    rw [pctOp_na_right]
  · simp only [pctList, List.getElem?_zipWith, hs, List.getElem?_cons_succ, hz]
    by_cases hpos : 0 < a
    · simp [pctOp, Val.div, Val.sub, ha, hpos]
    · simp [pctOp, Val.div, Val.sub, ha, hpos]
  · have hu2 : u + 1 < (ffill s).length := by omega
    have hy : (ffill s)[u + 1]? = some ((ffill s)[u + 1]) := List.getElem?_eq_getElem hu2
    simp only [pctList, List.getElem?_zipWith, hy, List.getElem?_cons_succ, hN]
    rw [pctOp_na_right]

/-- C8 witness: the amended statement at the concrete Series [NA, 0, 2]. -/
theorem c8_pct_change_amended_witness :
    ([Val.NA, Val.num 0, Val.num 2] ≠ ([] : List Val) ∧
      (ffill [Val.NA, Val.num 0, Val.num 2])[1]? = some (Val.num 0) ∧
      (ffill [Val.NA, Val.num 0, Val.num 2])[2]? = some (Val.num 2) ∧
      (2 : ℚ) ≠ 0 ∧
      (ffill [Val.NA, Val.num 0, Val.num 2])[0]? = some Val.NA ∧
      0 + 1 < [Val.NA, Val.num 0, Val.num 2].length) ∧
    ((pctList [Val.NA, Val.num 0, Val.num 2])[0]? = some Val.NA ∧
      (pctList [Val.NA, Val.num 0, Val.num 2])[1 + 1]? =
        some (if (0 : ℚ) < 2 then Val.pinf else Val.ninf) ∧
      (pctList [Val.NA, Val.num 0, Val.num 2])[0 + 1]? = some Val.NA) :=
  ⟨⟨by decide, by decide, by decide, by decide, by decide, by decide⟩,
    c8_pct_change_amended [Val.NA, Val.num 0, Val.num 2] 1 0 2
      (by decide) (by decide) (by decide) (by decide) (by decide) (by decide)⟩

/-! ## Lemmas about filter_flair and preprocess_subreddit -/

/-- filter_flair in mode dreams keeps exactly the dream-flair rows. -/
lemma filter_flair_dreams (df : DF) :
    filter_flair df "dreams" =
      Except.ok { rows := df.rows.filter flairMatch, hasWC := df.hasWC } := by
  simp [filter_flair]

/-- filter_flair in mode wake keeps exactly the complement rows. -/
lemma filter_flair_wake (df : DF) :
    filter_flair df "wake" =
      Except.ok { rows := df.rows.filter (fun r => !(flairMatch r)), hasWC := df.hasWC } := by
  simp [filter_flair]

/-- Rewriting the timestamp column is the identity on a row whose timestamp
cell already holds the converted epoch value. -/
lemma map_setTimestamp_self (rows : List Row)
    (h : ∀ r ∈ rows, r.timestamp = some r.created_utc) :
    rows.map setTimestamp = rows := by
  induction rows with
  | nil => rfl
  | cons r rs ih =>
    have hr : setTimestamp r = r := by
      have hts := h r (by simp)
      cases r
      simp only [setTimestamp]
      simp_all
    simp only [List.map_cons, hr]
    rw [ih (fun x hx => h x (by simp [hx]))]

/-! ## Claim theorems -/

/-- C1 counterexample: a record timestamped exactly at the anchor day is
classified pre, not post, by the post-anchor indicator of the segmented
regression (the indicator equals 0, never 1, at the anchor instant), even
though the window-membership label of the independence test classifies the
same instant post: the claimed boundary behaviour does not hold for every
classification the pipeline performs. -/
theorem c1_window_classification_cex :
    covidIndicator 0 0 ≠ 1 ∧ postCovidLabel 0 0 30 = true := by
  constructor
  · norm_num [covidIndicator]
  · norm_num [postCovidLabel]

/-- C1 amended: a timestamp strictly before the anchor is classified pre by
both classifications, and the independence-test label classifies the anchor
instant itself post; the post-anchor indicator of the segmented regression
however uses a strict comparison, so it classifies the anchor instant pre
(0) and only strictly later timestamps post (1). -/
theorem c1_window_classification (ts anchor endt : ℚ) (hend : anchor ≤ endt) :
    postCovidLabel anchor anchor endt = true ∧
    covidIndicator anchor anchor = 0 ∧
    (ts < anchor → covidIndicator ts anchor = 0 ∧ postCovidLabel ts anchor endt = false) ∧
    (anchor < ts → covidIndicator ts anchor = 1) := by
  refine ⟨?_, ?_, fun hlt => ⟨?_, ?_⟩, fun hgt => ?_⟩
  · simp [postCovidLabel, hend]
  · simp [covidIndicator]
  · simp only [covidIndicator]
    rw [if_neg (not_lt.mpr hlt.le)]
  · simp [postCovidLabel, not_le.mpr hlt]
  · simp only [covidIndicator]
    rw [if_pos hgt]

/-- C1 witness: the amended statement for an anchor at 0, a window end at
30 and a probe timestamp one unit before the anchor. -/
theorem c1_window_classification_witness :
    (0 : ℚ) ≤ 30 ∧
    (postCovidLabel 0 0 30 = true ∧
      covidIndicator 0 0 = 0 ∧
      ((-1 : ℚ) < 0 → covidIndicator (-1) 0 = 0 ∧ postCovidLabel (-1) 0 30 = false) ∧
      ((0 : ℚ) < -1 → covidIndicator (-1) 0 = 1)) :=
  ⟨by norm_num, c1_window_classification (-1) 0 30 (by norm_num)⟩

/-- C4: invoking the Record Filter with a category mode outside dreams/wake
fails with InvalidCategoryError, and with a recognized mode it succeeds and
raises no error, for every input record collection. -/
theorem c4_invalid_category (df : DF) (posts : String) :
    (¬(posts = "dreams" ∨ posts = "wake") →
      filter_flair df posts = Except.error UtilsError.InvalidCategoryError) ∧
    ((posts = "dreams" ∨ posts = "wake") →
      ∃ out, filter_flair df posts = Except.ok out) := by
  constructor
  · intro h
    simp only [filter_flair, if_neg h]
  · intro h
    rcases h with h | h
    · subst h
      exact ⟨_, filter_flair_dreams df⟩
    · subst h
      exact ⟨_, filter_flair_wake df⟩

/-- C4 witness: an unrecognized mode (control) fails and the recognized
mode wake succeeds, on an empty table. -/
theorem c4_invalid_category_witness :
    (¬(("control" = "dreams") ∨ ("control" = "wake")) ∧
      filter_flair { rows := [], hasWC := false } "control" =
        Except.error UtilsError.InvalidCategoryError) ∧
    ((("wake" = "dreams") ∨ ("wake" = "wake")) ∧
      ∃ out, filter_flair { rows := [], hasWC := false } "wake" = Except.ok out) :=
  ⟨⟨by decide, (c4_invalid_category { rows := [], hasWC := false } "control").1 (by decide)⟩,
   ⟨by decide, (c4_invalid_category { rows := [], hasWC := false } "wake").2 (by decide)⟩⟩

/-- C10: a record whose flair label is missing is never selected by the
primary mode dreams and always selected by the complement mode wake, so
missing-flair records land in the control group rather than being dropped. -/
theorem c10_missing_flair (df : DF) (r : Row) (h : r.link_flair_text = none) :
    (∀ out, filter_flair df "dreams" = Except.ok out → r ∉ out.rows) ∧
    (r ∈ df.rows → ∀ out, filter_flair df "wake" = Except.ok out → r ∈ out.rows) := by
  have hfm : flairMatch r = false := by simp [flairMatch, h]
  constructor
  · intro out hout hmem
    rw [filter_flair_dreams] at hout
    cases Except.ok.inj hout
    rw [List.mem_filter] at hmem
    rw [hfm] at hmem
    exact Bool.false_ne_true hmem.2
  · intro hin out hout
    rw [filter_flair_wake] at hout
    cases Except.ok.inj hout
    exact List.mem_filter.mpr ⟨hin, by rw [hfm]; rfl⟩

/-- C10 witness: a concrete missing-flair row is excluded by mode dreams
and kept by mode wake. -/
theorem c10_missing_flair_witness :
    (({ id := 7, created_utc := 0, selftext := some "s", title := none,
        link_flair_text := none, wc := 2, timestamp := none } : Row).link_flair_text = none) ∧
    ((∀ out, filter_flair
        { rows := [{ id := 7, created_utc := 0, selftext := some "s", title := none,
                     link_flair_text := none, wc := 2, timestamp := none }], hasWC := true }
        "dreams" = Except.ok out →
        ({ id := 7, created_utc := 0, selftext := some "s", title := none,
           link_flair_text := none, wc := 2, timestamp := none } : Row) ∉ out.rows) ∧
      (({ id := 7, created_utc := 0, selftext := some "s", title := none,
          link_flair_text := none, wc := 2, timestamp := none } : Row) ∈
          ({ rows := [{ id := 7, created_utc := 0, selftext := some "s", title := none,
                        link_flair_text := none, wc := 2, timestamp := none }],
             hasWC := true } : DF).rows →
        ∀ out, filter_flair
          { rows := [{ id := 7, created_utc := 0, selftext := some "s", title := none,
                       link_flair_text := none, wc := 2, timestamp := none }], hasWC := true }
          "wake" = Except.ok out →
          ({ id := 7, created_utc := 0, selftext := some "s", title := none,
             link_flair_text := none, wc := 2, timestamp := none } : Row) ∈ out.rows)) :=
  ⟨rfl, c10_missing_flair
    { rows := [{ id := 7, created_utc := 0, selftext := some "s", title := none,
                 link_flair_text := none, wc := 2, timestamp := none }], hasWC := true }
    { id := 7, created_utc := 0, selftext := some "s", title := none,
      link_flair_text := none, wc := 2, timestamp := none } rfl⟩

/-- C7 counterexample: preprocess_subreddit is not side-effect free.  On a
one-row table without a timestamp column, the caller table after the call
differs from the table passed in: line 17 of utils.py wrote the timestamp
column into it in place. -/
theorem c7_frame_effects_cex :
    (preprocess_subreddit
        { rows := [{ id := 1, created_utc := 5, selftext := some "x", title := some "t",
                     link_flair_text := none, wc := 3, timestamp := none }], hasWC := true }
        "selftext").1 ≠
      { rows := [{ id := 1, created_utc := 5, selftext := some "x", title := some "t",
                   link_flair_text := none, wc := 3, timestamp := none }], hasWC := true } := by
  decide

/-- C7 amended: filter_flair has no side effect on the caller table for any
mode, and its result depends only on its arguments; preprocess_subreddit
writes exactly the timestamp column of the caller table (each caller row
becomes its setTimestamp image, all other fields untouched), so the caller
table is returned unchanged precisely when every row already carries the
converted timestamp. -/
theorem c7_frame_effects (df : DF) (posts column : String)
    (h : ∀ r ∈ df.rows, r.timestamp = some r.created_utc) :
    (filter_flairS df posts).1 = df ∧
    (preprocess_subreddit df column).1.rows = df.rows.map setTimestamp ∧
    (preprocess_subreddit df column).1 = df := by
  refine ⟨rfl, rfl, ?_⟩
  show ({ rows := df.rows.map setTimestamp, hasWC := df.hasWC } : DF) = df
  rw [map_setTimestamp_self df.rows h]

/-- C7 witness: the amended statement on a one-row table whose timestamp
column is already in place. -/
theorem c7_frame_effects_witness :
    (∀ r ∈ ({ rows := [{ id := 1, created_utc := 5, selftext := some "x", title := some "t",
                         link_flair_text := none, wc := 3, timestamp := some 5 }],
              hasWC := true } : DF).rows, r.timestamp = some r.created_utc) ∧
    ((filter_flairS
        { rows := [{ id := 1, created_utc := 5, selftext := some "x", title := some "t",
                     link_flair_text := none, wc := 3, timestamp := some 5 }], hasWC := true }
        "dreams").1 =
      { rows := [{ id := 1, created_utc := 5, selftext := some "x", title := some "t",
                   link_flair_text := none, wc := 3, timestamp := some 5 }], hasWC := true } ∧
    (preprocess_subreddit
        { rows := [{ id := 1, created_utc := 5, selftext := some "x", title := some "t",
                     link_flair_text := none, wc := 3, timestamp := some 5 }], hasWC := true }
        "selftext").1.rows =
      ({ rows := [{ id := 1, created_utc := 5, selftext := some "x", title := some "t",
                    link_flair_text := none, wc := 3, timestamp := some 5 }],
         hasWC := true } : DF).rows.map setTimestamp ∧
    (preprocess_subreddit
        { rows := [{ id := 1, created_utc := 5, selftext := some "x", title := some "t",
                     link_flair_text := none, wc := 3, timestamp := some 5 }], hasWC := true }
        "selftext").1 =
      { rows := [{ id := 1, created_utc := 5, selftext := some "x", title := some "t",
                   link_flair_text := none, wc := 3, timestamp := some 5 }], hasWC := true }) :=
  ⟨by decide,
    c7_frame_effects
      { rows := [{ id := 1, created_utc := 5, selftext := some "x", title := some "t",
                   link_flair_text := none, wc := 3, timestamp := some 5 }], hasWC := true }
      "dreams" "selftext" (by decide)⟩

/-! ## Lemmas about the insertion sort and table lookup -/

/-- Membership in an insertion step. -/
lemma mem_insertLe {α : Type} (le : α → α → Bool) (x a : α) (l : List α) :
    a ∈ insertLe le x l ↔ a = x ∨ a ∈ l := by
  induction l with
  | nil => simp [insertLe]
  | cons y ys ih =>
    simp only [insertLe]
    split
    · simp [List.mem_cons]
    · simp only [List.mem_cons, ih]
      tauto

/-- Membership is preserved by the insertion sort. -/
lemma mem_sortLe {α : Type} (le : α → α → Bool) (l : List α) (a : α) :
    a ∈ sortLe le l ↔ a ∈ l := by
  induction l with
  | nil => simp [sortLe]
  | cons x xs ih =>
    simp only [sortLe, List.foldr_cons] at ih ⊢
    rw [mem_insertLe, ih, List.mem_cons]

/-- The insertion step preserves distinctness. -/
lemma nodup_insertLe {α : Type} (le : α → α → Bool) (x : α) (l : List α)
    (hx : x ∉ l) (hl : l.Nodup) : (insertLe le x l).Nodup := by
  induction l with
  | nil => simp [insertLe]
  | cons y ys ih =>
    simp only [insertLe]
    split
    · exact List.nodup_cons.mpr ⟨hx, hl⟩
    · rcases List.nodup_cons.mp hl with ⟨hy, hys⟩
      have hx2 : x ∉ ys := fun hm => hx (List.mem_cons_of_mem y hm)
      have hxy : x ≠ y := fun he => hx (by simp [he])
      refine List.nodup_cons.mpr ⟨?_, ih hx2 hys⟩
      intro hmem
      rcases (mem_insertLe le x y ys).mp hmem with he | hm
      · exact hxy he.symm
      · exact hy hm

/-- The insertion sort preserves distinctness. -/
lemma nodup_sortLe {α : Type} (le : α → α → Bool) (l : List α)
    (hl : l.Nodup) : (sortLe le l).Nodup := by
  induction l with
  | nil => simp [sortLe]
  | cons x xs ih =>
    rcases List.nodup_cons.mp hl with ⟨hx, hxs⟩
    have hrw : sortLe le (x :: xs) = insertLe le x (sortLe le xs) := rfl
    rw [hrw]
    exact nodup_insertLe le x _ (fun hm => hx ((mem_sortLe le xs x).mp hm)) (ih hxs)

/-- Looking up a key in a table built by mapping over a distinct key list
returns the mapped value of that key. -/
lemma lookup_map_self {α β : Type} [DecidableEq α] [BEq α] [LawfulBEq α]
    (l : List α) (g : α → β) (d : α) (hd : d ∈ l) (hl : l.Nodup) :
    List.lookup d (l.map (fun x => (x, g x))) = some (g d) := by
  induction l with
  | nil => cases hd
  | cons x xs ih =>
    rcases List.nodup_cons.mp hl with ⟨_, hxs⟩
    by_cases he : d = x
    · subst he
      simp [List.lookup]
    · have hdxs : d ∈ xs := by
        rcases List.mem_cons.mp hd with he2 | hm
        · exact absurd he2 he
        · exact hm
      have hbeq : (d == x) = false := beq_eq_false_iff_ne.mpr he
      simp only [List.map_cons, List.lookup, hbeq]
      exact ih hdxs hxs

/-- C6 counterexample: in the daily count aggregation of samplesize.py a
(day, flair) cell with zero contributing records is not absent: day 0 has a
Short Dream record and no None record, yet the unstacked, zero-filled table
reports the cell (0, None) present with value 0. -/
theorem c6_empty_bucket_cex :
    (([{ day := 0, link_flair_text := some "Short Dream" },
       { day := 1, link_flair_text := none }] : List SRec).filter
        (fun r => r.day = 0 ∧ consFlair r = "None")).length = 0 ∧
    lookupCell (dailyCounts
      [{ day := 0, link_flair_text := some "Short Dream" },
       { day := 1, link_flair_text := none }]) 0 "None" = some 0 := by
  decide

/-- C6 amended: for the weekly mean aggregation a bucket is present in the
output Series exactly when at least one record contributes a non-missing
value to it; in the daily count table of samplesize.py, however, a (day,
flair) cell with zero contributing records still appears, filled with value
0, whenever its day row and flair column exist. -/
theorem c6_bucket_presence (recs : List CRec) (sub : String) (field : CRec → Option ℚ)
    (w : ℤ) (srecs : List SRec) (d : ℤ) (f : String)
    (hd : d ∈ sdays srecs) (hf : f ∈ sflairs srecs)
    (hz : (srecs.filter (fun r => r.day = d ∧ consFlair r = f)).length = 0) :
    ((∃ v, (w, v) ∈ groupWeeklyMean recs sub field) ↔
      ∃ r ∈ recs, r.subreddit = sub ∧ r.week = w ∧ (field r).isSome = true) ∧
    lookupCell (dailyCounts srecs) d f = some 0 := by
  constructor
  · constructor
    · rintro ⟨v, hv⟩
      rw [groupWeeklyMean, List.mem_filterMap] at hv
      obtain ⟨w2, hw2, hsome⟩ := hv
      by_cases hemp : (groupVals recs sub field w2).isEmpty
      · rw [if_pos hemp] at hsome
        cases hsome
      · rw [if_neg hemp] at hsome
        injection hsome with hpair
        have hw2w : w2 = w := congrArg Prod.fst hpair
        subst hw2w
        have hne : groupVals recs sub field w2 ≠ [] := by
          intro hnil
          rw [hnil] at hemp
          exact hemp rfl
        obtain ⟨q, hq⟩ := List.exists_mem_of_ne_nil _ hne
        rw [groupVals, List.mem_filterMap] at hq
        obtain ⟨r, hrf, hfield⟩ := hq
        rw [List.mem_filter] at hrf
        obtain ⟨hr, hp⟩ := hrf
        have hprop : r.subreddit = sub ∧ r.week = w2 := by
          simpa using hp
        exact ⟨r, hr, hprop.1, hprop.2, by rw [hfield]; rfl⟩
    · rintro ⟨r, hr, hsub, hw, hsome⟩
      obtain ⟨q, hq⟩ := Option.isSome_iff_exists.mp hsome
      have hwmem : w ∈ cweeks recs := by
        rw [cweeks, mem_sortLe, List.mem_dedup, List.mem_map]
        exact ⟨r, hr, hw⟩
      have hqmem : q ∈ groupVals recs sub field w := by
        rw [groupVals, List.mem_filterMap]
        exact ⟨r, List.mem_filter.mpr ⟨hr, by simp [hsub, hw]⟩, hq⟩
      have hemp : ¬((groupVals recs sub field w).isEmpty = true) := by
        rw [List.isEmpty_iff]
        exact List.ne_nil_of_mem hqmem
      refine ⟨(groupVals recs sub field w).sum / (groupVals recs sub field w).length, ?_⟩
      rw [groupWeeklyMean, List.mem_filterMap]
      exact ⟨w, hwmem, by rw [if_neg hemp]⟩
  · have hnodupd : (sdays srecs).Nodup :=
      nodup_sortLe _ _ (List.nodup_dedup _)
    have hnodupf : (sflairs srecs).Nodup :=
      nodup_sortLe _ _ (List.nodup_dedup _)
    have h1 := lookup_map_self (sdays srecs)
      (fun d2 => (sflairs srecs).map (fun f2 =>
        (f2, (srecs.filter (fun r => r.day = d2 ∧ consFlair r = f2)).length)))
      d hd hnodupd
    have h2 := lookup_map_self (sflairs srecs)
      (fun f2 => (srecs.filter (fun r => r.day = d ∧ consFlair r = f2)).length)
      f hf hnodupf
    simp only [dailyCounts, lookupCell, h1, h2, hz]

/-- C6 witness: the amended statement with a single Dreams record in week 0
for the mean aggregation, and the concrete count table in which the
(0, None) cell has zero contributors. -/
theorem c6_bucket_presence_witness :
    ((0 : ℤ) ∈ sdays [{ day := 0, link_flair_text := some "Short Dream" },
                      { day := 1, link_flair_text := none }] ∧
      "None" ∈ sflairs [{ day := 0, link_flair_text := some "Short Dream" },
                        { day := 1, link_flair_text := none }] ∧
      (([{ day := 0, link_flair_text := some "Short Dream" },
         { day := 1, link_flair_text := none }] : List SRec).filter
          (fun r => r.day = 0 ∧ consFlair r = "None")).length = 0) ∧
    (((∃ v, ((0 : ℤ), v) ∈ groupWeeklyMean
          [{ subreddit := "Dreams", week := 0, covid := none, emo_anx := some 1 }]
          "Dreams" (fun r => r.emo_anx)) ↔
        ∃ r ∈ [({ subreddit := "Dreams", week := 0, covid := none,
                  emo_anx := some 1 } : CRec)],
          r.subreddit = "Dreams" ∧ r.week = 0 ∧ (r.emo_anx).isSome = true) ∧
      lookupCell (dailyCounts
        [{ day := 0, link_flair_text := some "Short Dream" },
         { day := 1, link_flair_text := none }]) 0 "None" = some 0) :=
  ⟨⟨by decide, by decide, by decide⟩,
    c6_bucket_presence
      [{ subreddit := "Dreams", week := 0, covid := none, emo_anx := some 1 }]
      "Dreams" (fun r => r.emo_anx) 0
      [{ day := 0, link_flair_text := some "Short Dream" },
       { day := 1, link_flair_text := none }] 0 "None"
      (by decide) (by decide) (by decide)⟩

/-- C3: in segmented-regression mode, for every daily Series restricted to
a symmetric window around the anchor, if the pre-anchor subset has fewer
than 4 usable points or its regressors are collinear (singular Gram
matrix), then the counterfactual pre-anchor-only fit fails with
InsufficientDataError.  The OLS solver itself is external and is modelled
from the contract the spec states for it. -/
theorem c3_insufficient_pre_data (daily : List DailyRow) (anchor startd : ℤ)
    (h : (usablePoints (precovidSubset (addRegressors daily anchor) startd anchor)).length < 4
      ∨ det4 (gram ((usablePoints
          (precovidSubset (addRegressors daily anchor) startd anchor)).map
            (fun p => p.2))) = 0) :
    counterfactualFit daily anchor startd = Except.error FitError.InsufficientDataError := by
  simp only [counterfactualFit, fitOLS]
  rw [if_pos h]

/-- C3 witness: an 8-day window around an anchor at day 4.  The pre-anchor
subset (days 1 to 4) has a constant-zero Covid regressor, hence a singular
Gram matrix, and the counterfactual fit fails, while the primary fit on the
full window still proceeds. -/
theorem c3_insufficient_pre_data_witness :
    ((usablePoints (precovidSubset (addRegressors
        [{ date := 1, emo_anx := some 1 }, { date := 2, emo_anx := some 2 },
         { date := 3, emo_anx := some 1 }, { date := 4, emo_anx := some 2 },
         { date := 5, emo_anx := some 3 }, { date := 6, emo_anx := some 2 },
         { date := 7, emo_anx := some 3 }, { date := 8, emo_anx := some 4 }] 4) 1 4)).length < 4
      ∨ det4 (gram ((usablePoints (precovidSubset (addRegressors
        [{ date := 1, emo_anx := some 1 }, { date := 2, emo_anx := some 2 },
         { date := 3, emo_anx := some 1 }, { date := 4, emo_anx := some 2 },
         { date := 5, emo_anx := some 3 }, { date := 6, emo_anx := some 2 },
         { date := 7, emo_anx := some 3 }, { date := 8, emo_anx := some 4 }] 4) 1 4)).map
          (fun p => p.2))) = 0) ∧
    counterfactualFit
      [{ date := 1, emo_anx := some 1 }, { date := 2, emo_anx := some 2 },
       { date := 3, emo_anx := some 1 }, { date := 4, emo_anx := some 2 },
       { date := 5, emo_anx := some 3 }, { date := 6, emo_anx := some 2 },
       { date := 7, emo_anx := some 3 }, { date := 8, emo_anx := some 4 }] 4 1 =
      Except.error FitError.InsufficientDataError ∧
    (primaryFit
      [{ date := 1, emo_anx := some 1 }, { date := 2, emo_anx := some 2 },
       { date := 3, emo_anx := some 1 }, { date := 4, emo_anx := some 2 },
       { date := 5, emo_anx := some 3 }, { date := 6, emo_anx := some 2 },
       { date := 7, emo_anx := some 3 }, { date := 8, emo_anx := some 4 }] 4).isOk = true := by
  have hcoll : det4 (gram ((usablePoints (precovidSubset (addRegressors
      [{ date := 1, emo_anx := some 1 }, { date := 2, emo_anx := some 2 },
       { date := 3, emo_anx := some 1 }, { date := 4, emo_anx := some 2 },
       { date := 5, emo_anx := some 3 }, { date := 6, emo_anx := some 2 },
       { date := 7, emo_anx := some 3 }, { date := 8, emo_anx := some 4 }] 4) 1 4)).map
        (fun p => p.2))) = 0 := by
    norm_num [addRegressors, addRegressorsAux, precovidSubset, usablePoints,
      gram, v4add, det4, det3, det2, List.filterMap_cons, List.filterMap_nil,
      List.map_cons, List.map_nil, List.foldr_cons, List.foldr_nil,
      List.filter_cons, List.filter_nil, Option.map_some, Option.map_none]
  refine ⟨Or.inr hcoll, c3_insufficient_pre_data _ 4 1 (Or.inr hcoll), ?_⟩
  have hdet : det4 (gram ((usablePoints (addRegressors
      [{ date := 1, emo_anx := some 1 }, { date := 2, emo_anx := some 2 },
       { date := 3, emo_anx := some 1 }, { date := 4, emo_anx := some 2 },
       { date := 5, emo_anx := some 3 }, { date := 6, emo_anx := some 2 },
       { date := 7, emo_anx := some 3 }, { date := 8, emo_anx := some 4 }] 4)).map
        (fun p => p.2))) = 400 := by
    norm_num [addRegressors, addRegressorsAux, usablePoints,
      gram, v4add, det4, det3, det2, List.filterMap_cons, List.filterMap_nil,
      List.map_cons, List.map_nil, List.foldr_cons, List.foldr_nil,
      Option.map_some, Option.map_none]
  have hlen : (usablePoints (addRegressors
      [{ date := 1, emo_anx := some 1 }, { date := 2, emo_anx := some 2 },
       { date := 3, emo_anx := some 1 }, { date := 4, emo_anx := some 2 },
       { date := 5, emo_anx := some 3 }, { date := 6, emo_anx := some 2 },
       { date := 7, emo_anx := some 3 }, { date := 8, emo_anx := some 4 }] 4)).length = 8 := by
    norm_num [addRegressors, addRegressorsAux, usablePoints,
      List.filterMap_cons, List.filterMap_nil, Option.map_some, Option.map_none]
  simp only [primaryFit, fitOLS, hlen, hdet]
  norm_num [Except.isOk, Except.toBool]

/-- A concrete input for the correlation run: two weeks of records in which
the news covid mean doubles from week 0 to week 1, so the news percent
change reaches 1.0 and trips the plotting assert at line 156 of
anxiety_corr.py after the tables were already exported. -/
def c5recs : List CRec :=
  [{ subreddit := "Dreams", week := 0, covid := none, emo_anx := some 1 },
   { subreddit := "news", week := 0, covid := some 1, emo_anx := none },
   { subreddit := "Dreams", week := 1, covid := none, emo_anx := some 1 },
   { subreddit := "news", week := 1, covid := some 2, emo_anx := none }]

/-- C5 counterexample: a run of anxiety_corr.py is not all-or-nothing.  On
c5recs the run terminates with an assertion error after having written the
stats and values tables: a non-empty strict subset of its four output
files. -/
lemma c5run_eval :
    runAnxietyCorr c5recs "dreams" = (["stat", "vals"], some "AssertionError") := by
  have hA : (("news" : String) = "Dreams") = False := eq_false (by decide)
  have hB : (("Dreams" : String) = "news") = False := eq_false (by decide)
  have hC : (("dreams" : String) = "wake") = False := eq_false (by decide)
  have hD : (("Dreams" : String) = "Dreams") = True := eq_true rfl
  have hE : (("news" : String) = "news") = True := eq_true rfl
  norm_num [runAnxietyCorr, weeklyTable, cweeks, groupVals, c5recs, sortLe, insertLe,
    shiftList, pctList, ffill, ffillAux, pctOp, Val.div, Val.sub, valAbsGe,
    hA, hB, hC, hD, hE,
    List.filterMap_cons, List.filterMap_nil, List.filter_cons, List.filter_nil,
    List.map_cons, List.map_nil, List.foldr_cons, List.foldr_nil,
    List.dedup_cons_of_mem, List.dedup_cons_of_not_mem, List.any_cons, List.any_nil,
    List.zipWith_cons_cons, List.zipWith_nil_right, List.zipWith_nil_left]

theorem c5_incomplete_output_cex :
    runAnxietyCorr c5recs "dreams" = (["stat", "vals"], some "AssertionError") ∧
    (["stat", "vals"] : List String) ≠ [] ∧
    (["stat", "vals"] : List String) ≠ anxietyCorrOutputs :=
  ⟨c5run_eval, by decide, by decide⟩

/-- Every run ends in one of exactly two states: aborted at the plotting
asserts having written the two tables, or completed with all four files. -/
lemma runAnxietyCorr_cases (recs : List CRec) (posts : String) :
    runAnxietyCorr recs posts = (["stat", "vals"], some "AssertionError") ∨
    runAnxietyCorr recs posts = (anxietyCorrOutputs, none) := by
  simp only [runAnxietyCorr]
  repeat' split
  all_goals first | exact Or.inl rfl | exact Or.inr rfl

/-- C5 amended: the run writes the stats and values tables before the
plotting stage; when the plotting asserts fail it aborts having written
exactly those two files (a non-empty strict subset of the output set), and
only a run that ends without error emits the complete output set.  A failed
run therefore never emits plots without tables, but partial output does
occur. -/
theorem c5_output_atomicity (recs : List CRec) (posts : String) :
    ((runAnxietyCorr recs posts).2 = none →
      (runAnxietyCorr recs posts).1 = anxietyCorrOutputs) ∧
    ((runAnxietyCorr recs posts).2 ≠ none →
      (runAnxietyCorr recs posts).1 = ["stat", "vals"]) := by
  rcases runAnxietyCorr_cases recs posts with h | h <;> rw [h]
  · exact ⟨fun hn => Option.noConfusion hn, fun _ => rfl⟩
  · exact ⟨fun _ => rfl, fun hn => absurd rfl hn⟩

/-- C5 witness: on c5recs the run ends with an error and its emitted file
list is exactly the two tables. -/
theorem c5_output_atomicity_witness :
    (runAnxietyCorr c5recs "dreams").2 ≠ none ∧
    (runAnxietyCorr c5recs "dreams").1 = ["stat", "vals"] := by
  have h2 : (runAnxietyCorr c5recs "dreams").2 ≠ none := by
    rw [c5run_eval]
    exact Option.some_ne_none _
  exact ⟨h2, (c5_output_atomicity c5recs "dreams").2 h2⟩

/-! ## Lemmas about the bootstrap model -/

/-- A seeded bootstrap is independent of the ambient random state. -/
lemma computeBootci_seeded (data : List ℚ) (kw : BootciKwargs) (s : ℕ)
    (h : kw.seed = some s) (amb1 amb2 : ℕ → ℕ) :
    computeBootci data kw amb1 = computeBootci data kw amb2 := by
  simp only [computeBootci, h]

/-- A resample mean drawn through a constant index stream is the data value
at that index. -/
lemma resampleMean_const (data : List ℚ) (k j : ℕ) (hL : data.length ≠ 0) :
    resampleMean data (fun _ => k) j = data.getD (k % data.length) 0 := by
  unfold resampleMean
  rw [List.map_const', List.length_range, List.sum_replicate, nsmul_eq_mul,
    mul_div_cancel_left₀]
  exact Nat.cast_ne_zero.mpr hL

/-- The unseeded bootstrap of the nightmares script, invoked under a
constant ambient stream, returns the degenerate percentile interval at the
indexed data value. -/
lemma computeBootci_const (data : List ℚ) (k : ℕ) (hL : data.length ≠ 0) :
    computeBootci data bootci_kwargs (fun _ => k) =
      (data.getD (k % data.length) 0, data.getD (k % data.length) 0) := by
  have hred : computeBootci data bootci_kwargs (fun _ => k) =
      ((((List.range 10000).map (resampleMean data (fun _ => k))).mergeSort
          (fun a b => a ≤ b)).getD 249 0,
       (((List.range 10000).map (resampleMean data (fun _ => k))).mergeSort
          (fun a b => a ≤ b)).getD 9749 0) := rfl
  rw [hred]
  have hfun : resampleMean data (fun _ => k) =
      fun _ => data.getD (k % data.length) 0 :=
    funext fun j => resampleMean_const data k j hL
  rw [hfun, List.map_const', List.length_range]
  have hsorted : (List.replicate 10000 (data.getD (k % data.length) 0)).mergeSort
      (fun a b => a ≤ b) = List.replicate 10000 (data.getD (k % data.length) 0) :=
    List.perm_replicate.mp (List.mergeSort_perm _ _)
  rw [hsorted]
  simp only [List.getD_eq_getElem?_getD, List.getElem?_replicate]
  norm_num

/-- A concrete titles table for the independence test: two pre-window
records with binarized nightmare values 0 and 1 and one post-window
record. -/
def c2recs : List NRec :=
  [{ timestamp := -5, nightmare := 0 }, { timestamp := -3, nightmare := 2 },
   { timestamp := 1, nightmare := 1 }]

/-- C2 counterexample: the evaluator is not deterministic across
invocations.  On c2recs, two invocations that are identical except for the
ambient random state of the process (which the unseeded bootstrap consumes)
return different outputs: the pre-window bootstrap confidence intervals
differ. -/
theorem c2_determinism_cex :
    evalNightmares c2recs 0 (-30) 30 (fun _ => 0) ≠
      evalNightmares c2recs 0 (-30) 30 (fun _ => 1) := by
  have hpre : preNmVals c2recs 0 (-30) 30 = [0, 1] := by
    norm_num [preNmVals, chi2Window, postCovidLabel, nightBin, c2recs,
      List.filter_cons, List.filter_nil, List.map_cons, List.map_nil]
  have hp1 : (evalNightmares c2recs 0 (-30) 30 (fun _ => 0)).preCI =
      (100 * (computeBootci (preNmVals c2recs 0 (-30) 30) bootci_kwargs (fun _ => 0)).1,
       100 * (computeBootci (preNmVals c2recs 0 (-30) 30) bootci_kwargs (fun _ => 0)).2) := rfl
  have hp2 : (evalNightmares c2recs 0 (-30) 30 (fun _ => 1)).preCI =
      (100 * (computeBootci (preNmVals c2recs 0 (-30) 30) bootci_kwargs (fun _ => 1)).1,
       100 * (computeBootci (preNmVals c2recs 0 (-30) 30) bootci_kwargs (fun _ => 1)).2) := rfl
  have h1 : (evalNightmares c2recs 0 (-30) 30 (fun _ => 0)).preCI = (0, 0) := by
    rw [hp1, hpre, computeBootci_const [0, 1] 0 (by norm_num)]
    norm_num
  have h2 : (evalNightmares c2recs 0 (-30) 30 (fun _ => 1)).preCI = (100, 100) := by
    rw [hp2, hpre, computeBootci_const [0, 1] 1 (by norm_num)]
    norm_num
  intro h
  rw [h, h2] at h1
  exact absurd h1 (by norm_num [Prod.ext_iff])

/-- C2 amended: every component of the evaluator output other than the
bootstrap confidence intervals (chi-square statistic, observed and expected
frequency tables) is identical across invocations on identical inputs, and
the bootstrap itself is invocation-independent whenever a seed is passed;
but the call in nightmares_chi2.py passes no seed (its keyword record has
seed none), so its confidence intervals depend on the ambient random state
and the output as a whole is not reproducible. -/
theorem c2_determinism (recs : List NRec) (anchor startt endt : ℚ)
    (amb1 amb2 : ℕ → ℕ) (data : List ℚ) (kw : BootciKwargs) (s : ℕ)
    (hs : kw.seed = some s) :
    (evalNightmares recs anchor startt endt amb1).chi2 =
      (evalNightmares recs anchor startt endt amb2).chi2 ∧
    (evalNightmares recs anchor startt endt amb1).obs =
      (evalNightmares recs anchor startt endt amb2).obs ∧
    (evalNightmares recs anchor startt endt amb1).expPre0 =
      (evalNightmares recs anchor startt endt amb2).expPre0 ∧
    (evalNightmares recs anchor startt endt amb1).expPre1 =
      (evalNightmares recs anchor startt endt amb2).expPre1 ∧
    (evalNightmares recs anchor startt endt amb1).expPost0 =
      (evalNightmares recs anchor startt endt amb2).expPost0 ∧
    (evalNightmares recs anchor startt endt amb1).expPost1 =
      (evalNightmares recs anchor startt endt amb2).expPost1 ∧
    computeBootci data kw amb1 = computeBootci data kw amb2 ∧
    bootci_kwargs.seed = none :=
  ⟨rfl, rfl, rfl, rfl, rfl, rfl, computeBootci_seeded data kw s hs amb1 amb2, rfl⟩

/-- C2 witness: the amended statement on the concrete table c2recs with two
distinct ambient states, and a seeded bootstrap with seed 42 on the
pre-window values. -/
theorem c2_determinism_witness :
    ({ func := "mean", method := "per", n_boot := 10000, decimals := 6,
       seed := some 42 } : BootciKwargs).seed = some 42 ∧
    ((evalNightmares c2recs 0 (-30) 30 (fun _ => 0)).chi2 =
        (evalNightmares c2recs 0 (-30) 30 (fun _ => 1)).chi2 ∧
      (evalNightmares c2recs 0 (-30) 30 (fun _ => 0)).obs =
        (evalNightmares c2recs 0 (-30) 30 (fun _ => 1)).obs ∧
      (evalNightmares c2recs 0 (-30) 30 (fun _ => 0)).expPre0 =
        (evalNightmares c2recs 0 (-30) 30 (fun _ => 1)).expPre0 ∧
      (evalNightmares c2recs 0 (-30) 30 (fun _ => 0)).expPre1 =
        (evalNightmares c2recs 0 (-30) 30 (fun _ => 1)).expPre1 ∧
      (evalNightmares c2recs 0 (-30) 30 (fun _ => 0)).expPost0 =
        (evalNightmares c2recs 0 (-30) 30 (fun _ => 1)).expPost0 ∧
      (evalNightmares c2recs 0 (-30) 30 (fun _ => 0)).expPost1 =
        (evalNightmares c2recs 0 (-30) 30 (fun _ => 1)).expPost1 ∧
      computeBootci [0, 1]
        { func := "mean", method := "per", n_boot := 10000, decimals := 6,
          seed := some 42 } (fun _ => 0) =
        computeBootci [0, 1]
          { func := "mean", method := "per", n_boot := 10000, decimals := 6,
            seed := some 42 } (fun _ => 1) ∧
      bootci_kwargs.seed = none) :=
  ⟨rfl, c2_determinism c2recs 0 (-30) 30 (fun _ => 0) (fun _ => 1) [0, 1]
    { func := "mean", method := "per", n_boot := 10000, decimals := 6, seed := some 42 }
    42 rfl⟩

end Covidreams
